import Mathlib

/-!
Verification of the Session Router and Reconciliation Core of a support-bot
repository.  The definitions below are a shallow embedding, translated
statement by statement from the Python sources: payment_gateway.py,
miniapp_server.py (check_payment_status, payment_return,
update_user_subscription_after_payment), handlers.py (payment handlers,
thread-lifecycle handlers), database.py (thread-state store) and utils.py
(origin index and relay logic).  External collaborators (chat platform,
payment gateway HTTP calls, backend directory HTTP calls) are modelled as
explicit environment records holding the values their calls return.
-/

/-! ## Payment gateway predicates (payment_gateway.py) -/

/-- Order status code 1: order registered but not captured (payment_gateway.py line 24). -/
def ORDER_STATUS_PRE_AUTH : Nat := 1

/-- Order status code 2: successful, captured payment (payment_gateway.py line 25). -/
def ORDER_STATUS_SUCCESS : Nat := 2

/-- Translation of payment_gateway.is_order_paid (lines 181-191):
returns true when the status is 1 (PRE_AUTH) or 2 (SUCCESS). -/
def is_order_paid (order_status : Nat) : Bool :=
  order_status == ORDER_STATUS_PRE_AUTH || order_status == ORDER_STATUS_SUCCESS

/-! ## Payment order ledger

The ledger row layout follows the spec data model and the fields the
src/ callers read and write.  The four primitive operations are called
throughout miniapp_server.py and handlers.py but their bodies are not in
the src/ tree, so they are modelled from the spec (section 4.4). -/

/-- A payment order row, with the fields the src/ callers read:
telegram_id, uuid, plan_days, amount, currency, status,
subscription_updated. -/
structure PaymentOrder where
  telegram_id : Int
  uuid : Option String
  plan_days : Option Nat
  amount : Rat
  currency : String
  status : String
  subscription_updated : Bool
deriving Repr, DecidableEq

/-- The payment order ledger: rows keyed by order_id (globally unique). -/
abbrev Ledger := List (String × PaymentOrder)

/-- Modelled from the spec: db_get_payment_order, the ledger get operation
of section 4.4 (get(order_id) -> Order or None); its body is not under
src/.  Returns the row stored under order_id. -/
def db_get_payment_order (st : Ledger) (order_id : String) : Option PaymentOrder :=
  (st.find? (fun p => p.1 == order_id)).map Prod.snd

/-- Point update of the row stored under one order_id. -/
def ledgerMapAt (st : Ledger) (order_id : String)
    (g : PaymentOrder → PaymentOrder) : Ledger :=
  st.map (fun p => if p.1 == order_id then (p.1, g p.2) else p)

/-- Modelled from the spec: db_update_payment_order_status, the ledger
update_status operation of section 4.4; its body is not under src/.
Stores the mapped status on the row (the raw payload carries no logic
and is dropped from the model). -/
def db_update_payment_order_status (st : Ledger) (order_id : String)
    (status : String) : Ledger :=
  ledgerMapAt st order_id (fun o => { o with status := status })

/-- Modelled from the spec: db_mark_subscription_updated, the ledger
mark_subscription_updated operation of section 4.4; its body is not under
src/.  Sets subscription_updated to true on the row; the callers in src/
ignore its return value. -/
def db_mark_subscription_updated (st : Ledger) (order_id : String) : Ledger :=
  ledgerMapAt st order_id (fun o => { o with subscription_updated := true })

/-! ## Backend subscription update (miniapp_server.py lines 643-706) -/

/-- The backend directory record returned by get_user_by_uuid, with the
fields read by update_user_subscription_after_payment. -/
structure UserData where
  status : String
  expireAt : Option String
deriving Repr, DecidableEq

/-- Environment for the backend directory calls: the value
get_user_by_uuid returns and whether update_user_subscription returns a
result (truthy) or None. -/
structure BackendEnv where
  userData : Option UserData
  updateOk : Bool
deriving Repr, DecidableEq

/-- Python str.upper for the ASCII statuses the backend returns, as a
structural recursion the kernel can evaluate (String.toUpper is defined
by well-founded recursion and does not reduce). -/
def pyUpper (s : String) : String := ⟨s.data.map Char.toUpper⟩

/-- Python str.lower, structurally (see pyUpper). -/
def pyLower (s : String) : String := ⟨s.data.map Char.toLower⟩

/-- Python truthiness of an optional string (None and the empty string
are falsy). -/
def optStrTruthy : Option String → Bool
  | some s => s != ""
  | none => false

/-- Python truthiness of an optional natural (None and 0 are falsy). -/
def optNatTruthy : Option Nat → Bool
  | some n => n != 0
  | none => false

/-- Seconds in a day; timedelta(days=d) is modelled as d * 86400 on
integer timestamps. -/
def secondsPerDay : Int := 86400

/-- The new-expiry computation of update_user_subscription_after_payment
(miniapp_server.py lines 659-683).  parse models dateutil isoparse /
datetime.fromisoformat: some on success, none when parsing raises (the
except branch at line 678 falls back to now). -/
def computeNewExpireAt (parse : String → Option Int) (ud : UserData)
    (now : Int) (plan_days : Nat) : Int :=
  let user_status := pyUpper ud.status
  if user_status == "ACTIVE" && optStrTruthy ud.expireAt then
    match ud.expireAt with
    | some s =>
      match parse s with
      | some expire_date => expire_date + plan_days * secondsPerDay
      | none => now + plan_days * secondsPerDay
    | none => now + plan_days * secondsPerDay
  else
    now + plan_days * secondsPerDay

/-- One update_subject request sent to the backend directory
(update_user_subscription call at miniapp_server.py lines 691-698), with
the status and expiry it carries, and whether the backend reported
success (result truthy) or failure (None). -/
structure SubjUpdate where
  uuid : String
  status : String
  expire_at : Int
  ok : Bool
deriving Repr, DecidableEq

/-- Translation of update_user_subscription_after_payment
(miniapp_server.py lines 643-706).  Returns the list of update_subject
calls it performs (empty when get_user_by_uuid returns None, line 655).
The Python function returns None in every case and swallows every
exception, so callers observe nothing. -/
def update_user_subscription_after_payment (be : BackendEnv)
    (parse : String → Option Int) (uuid : String) (plan_days : Nat)
    (now : Int) : List SubjUpdate :=
  match be.userData with
  | none => []
  | some ud =>
    [{ uuid := uuid, status := "ACTIVE",
       expire_at := computeNewExpireAt parse ud now plan_days,
       ok := be.updateOk }]

/-! ## The status-check reconciliation endpoint
(miniapp_server.py check_payment_status, lines 821-995) -/

/-- Environment for the gateway calls inside one reconciliation: the
orderStatus of the first get_order_status call (none when the call
fails), whether deposit_order returns a result, and the orderStatus of
the re-check after a successful deposit. -/
structure GatewayEnv where
  status1 : Option Nat
  depositOk : Bool
  status2 : Option Nat
deriving Repr, DecidableEq

/-- HTTP-level outcome of a reconciliation entry point. -/
inductive HttpOutcome where
  | ok (isPaid : Bool) (status_code : Nat)
  | notFound
  | forbidden
  | gatewayError
deriving Repr, DecidableEq

/-- Result of running one reconciliation entry point: the response, the
ledger afterwards, and the backend update_subject calls performed. -/
structure ReconcileResult where
  outcome : HttpOutcome
  ledger : Ledger
  backendCalls : List SubjUpdate
deriving Repr, DecidableEq

/-- The PRE_AUTH deposit-and-recheck block shared by check_payment_status
(lines 894-907) and payment_return (lines 1076-1089): when the first
status is 1 and the deposit succeeds, the status is fetched again and
is_paid recomputed; otherwise the original status and its is_order_paid
value stand. -/
def resolveOrderStatus (gw : GatewayEnv) (status_code : Nat) : Nat × Bool :=
  if status_code == ORDER_STATUS_PRE_AUTH then
    if gw.depositOk then
      match gw.status2 with
      | some s2 => (s2, is_order_paid s2)
      | none => (status_code, is_order_paid status_code)
    else (status_code, is_order_paid status_code)
  else (status_code, is_order_paid status_code)

/-- The subscription-update block duplicated in check_payment_status
(lines 920-976) and payment_return (lines 1102-1154): re-check ownership,
fetch the caller's backend uuid, compare it with the order's uuid, skip
when subscription_updated is already set, otherwise run the backend
update and then mark the order.  success is the response produced when
the block falls through. -/
def subscriptionUpdateBlock (st1 : Ledger) (payment_order : PaymentOrder)
    (order_id : String) (telegram_id : Int)
    (user_backend : Int → Option (String × String)) (be : BackendEnv)
    (parse : String → Option Int) (now : Int)
    (success : HttpOutcome) : ReconcileResult :=
  if payment_order.telegram_id != telegram_id then ⟨.forbidden, st1, []⟩
  else
    match user_backend telegram_id with
    | none => ⟨.notFound, st1, []⟩
    | some (user_uuid, _email) =>
      if user_uuid == "" then ⟨.notFound, st1, []⟩
      else if payment_order.uuid != some user_uuid then ⟨.forbidden, st1, []⟩
      else if payment_order.subscription_updated then ⟨success, st1, []⟩
      else
        match payment_order.uuid, payment_order.plan_days with
        | some uuid, some plan_days =>
          if uuid != "" && plan_days != 0 then
            ⟨success, db_mark_subscription_updated st1 order_id,
             update_user_subscription_after_payment be parse uuid plan_days now⟩
          else ⟨success, st1, []⟩
        | _, _ => ⟨success, st1, []⟩

/-- Translation of the check_payment_status endpoint (miniapp_server.py
lines 821-995), after order_id and telegram_id have been extracted:
ledger lookup, ownership check, gateway status fetch, PRE_AUTH deposit
attempt, ledger status write, and on is_paid the subscription-update
block. -/
def check_payment_status (st : Ledger) (order_id : String)
    (telegram_id : Int) (user_backend : Int → Option (String × String))
    (gw : GatewayEnv) (be : BackendEnv) (parse : String → Option Int)
    (now : Int) : ReconcileResult :=
  match db_get_payment_order st order_id with
  | none => ⟨.notFound, st, []⟩
  | some payment_order =>
    if payment_order.telegram_id != telegram_id then ⟨.forbidden, st, []⟩
    else
      match gw.status1 with
      | none => ⟨.gatewayError, st, []⟩
      | some sc0 =>
        let resolved := resolveOrderStatus gw sc0
        let status_code := resolved.1
        let is_paid := resolved.2
        let st1 := db_update_payment_order_status st order_id
          (if is_paid then "PAID" else "FAILED")
        if is_paid then
          subscriptionUpdateBlock st1 payment_order order_id telegram_id
            user_backend be parse now (.ok true status_code)
        else ⟨.ok false status_code, st1, []⟩

/-! ## The return-redirect reconciliation handler
(miniapp_server.py payment_return, lines 997-1260) -/

/-- Cryptomus final success statuses (cryptomus_client.py line 24). -/
def FINAL_SUCCESS_STATUSES : List String := ["paid", "paid_over"]

/-- Translation of cryptomus_client.is_payment_successful
(lines 198-208). -/
def is_payment_successful (status : String) : Bool :=
  FINAL_SUCCESS_STATUSES.contains status

/-- The crypto-currency markers checked by payment_return
(miniapp_server.py line 1034). -/
def crypto_currencies : List String := ["crypto", "usdt", "ton", "eth", "btc"]

/-- Environment for the Cryptomus call inside payment_return: the status
string of get_payment_info, none when the call fails. -/
structure CryptomusEnv where
  paymentStatus : Option String
deriving Repr, DecidableEq

/-- Translation of the payment_return handler (miniapp_server.py lines
997-1260), after telegram_id and orderId have been extracted: ledger
lookup, ownership check, then either the Cryptomus status path or the
bank path (gateway status fetch, PRE_AUTH deposit attempt, ledger status
write), and on is_paid the same subscription-update block as
check_payment_status. -/
def payment_return (st : Ledger) (order_id : String) (telegram_id : Int)
    (user_backend : Int → Option (String × String)) (gw : GatewayEnv)
    (cm : CryptomusEnv) (be : BackendEnv) (parse : String → Option Int)
    (now : Int) : ReconcileResult :=
  match db_get_payment_order st order_id with
  | none => ⟨.notFound, st, []⟩
  | some payment_order =>
    if payment_order.telegram_id != telegram_id then ⟨.forbidden, st, []⟩
    else
      let payment_currency := pyLower payment_order.currency
      if crypto_currencies.contains payment_currency then
        match cm.paymentStatus with
        | none => ⟨.gatewayError, st, []⟩
        | some status =>
          let is_paid := is_payment_successful status
          let st1 := db_update_payment_order_status st order_id status
          if is_paid then
            subscriptionUpdateBlock st1 payment_order order_id telegram_id
              user_backend be parse now (.ok true 0)
          else ⟨.ok false 0, st1, []⟩
      else
        match gw.status1 with
        | none => ⟨.gatewayError, st, []⟩
        | some sc0 =>
          let resolved := resolveOrderStatus gw sc0
          let status_code := resolved.1
          let is_paid := resolved.2
          let st1 := db_update_payment_order_status st order_id
            (if is_paid then "PAID" else "FAILED")
          if is_paid then
            subscriptionUpdateBlock st1 payment_order order_id telegram_id
              user_backend be parse now (.ok true status_code)
          else ⟨.ok false status_code, st1, []⟩

/-! ## The Telegram Stars payment handlers (handlers.py lines 355-492) -/

/-- Python int(q * 100) on a rational amount q: multiplying n/d by 100
and truncating toward zero is exactly the truncating integer division of
n * 100 by d (Int.tdiv truncates toward zero). -/
def pyIntTimes100 (q : Rat) : Int := Int.tdiv (q.num * 100) (q.den : Int)

/-- Translation of handle_pre_checkout_query (handlers.py lines 355-408):
answer ok=true only when the payload is non-empty, the order exists, the
order belongs to the querying user (the check is skipped when from_user
is missing), the currency is XTR and total_amount equals
int(order.amount * 100). -/
def handle_pre_checkout_query (st : Ledger) (invoice_payload : String)
    (from_user : Option Int) (currency : String)
    (total_amount : Int) : Bool :=
  if invoice_payload == "" then false
  else
    match db_get_payment_order st invoice_payload with
    | none => false
    | some payment_order =>
      if (match from_user with
          | some user_id => payment_order.telegram_id != user_id
          | none => false) then false
      else if currency != "XTR" then false
      else if total_amount != pyIntTimes100 payment_order.amount then false
      else true

/-- Translation of handle_successful_payment (handlers.py lines 411-492),
after the invoice payload and sender have been extracted: ledger lookup,
ownership check, idempotency check on subscription_updated, ledger status
write to PAID, then the backend update followed by the unconditional
db_mark_subscription_updated call (update_user_subscription_after_payment
never raises).  Returns the ledger afterwards and the backend
update_subject calls performed. -/
def handle_successful_payment (st : Ledger) (invoice_payload : String)
    (from_user : Option Int) (be : BackendEnv)
    (parse : String → Option Int) (now : Int) :
    Ledger × List SubjUpdate :=
  if invoice_payload == "" then (st, [])
  else
    match db_get_payment_order st invoice_payload with
    | none => (st, [])
    | some payment_order =>
      if (match from_user with
          | some user_id => payment_order.telegram_id != user_id
          | none => false) then (st, [])
      else if payment_order.subscription_updated then (st, [])
      else
        let st1 := db_update_payment_order_status st invoice_payload "PAID"
        match payment_order.uuid, payment_order.plan_days with
        | some uuid, some plan_days =>
          if uuid != "" && plan_days != 0 then
            (db_mark_subscription_updated st1 invoice_payload,
             update_user_subscription_after_payment be parse uuid plan_days now)
          else (st1, [])
        | _, _ => (st1, [])

/-! ## Interleaved reconciliation (concurrency model for the
exactly-once property)

Each reconciliation entry point performs, against the shared ledger row
of one order, the sequence: read the row (db_get_payment_order, the
subscription_updated flag is taken from this snapshot), then, if the
snapshot flag was false, the backend update_subject call, then
db_mark_subscription_updated.  The awaited gateway and backend HTTP
calls sit between these ledger accesses, so a cooperatively-scheduled
second caller can run between any two of them.  The machine below makes
those three ledger accesses the atomic steps of a caller and interleaves
two callers under an explicit schedule. -/

/-- Program counter of one reconciliation caller: about to read the row,
about to test the snapshotted flag, about to mark the row, or done
(applied or skipped). -/
inductive RecPC where
  | toRead
  | toCheck
  | toMark
  | doneApplied
  | doneSkipped
deriving Repr, DecidableEq

/-- One reconciliation caller: its program counter and the
subscription_updated value its db_get_payment_order snapshot holds. -/
structure RecCaller where
  pc : RecPC
  snap : Bool
deriving Repr, DecidableEq

/-- The shared state of one order: its subscription_updated flag and the
number of backend update_subject calls performed so far. -/
structure RecShared where
  flag : Bool
  updates : Nat
deriving Repr, DecidableEq

/-- One atomic step of a reconciliation caller, mirroring the source
order of ledger accesses: snapshot read (miniapp_server.py line 859),
flag test on the snapshot plus the backend update call (lines 957-965),
unconditional mark (line 969). -/
def recStep (sh : RecShared) (c : RecCaller) : RecShared × RecCaller :=
  match c.pc with
  | .toRead => (sh, { pc := .toCheck, snap := sh.flag })
  | .toCheck =>
    if c.snap then (sh, { c with pc := .doneSkipped })
    else ({ sh with updates := sh.updates + 1 }, { c with pc := .toMark })
  | .toMark => ({ sh with flag := true }, { c with pc := .doneApplied })
  | .doneApplied => (sh, c)
  | .doneSkipped => (sh, c)

/-- Two reconciliation callers a and b over the shared order state. -/
structure RecConc where
  sh : RecShared
  a : RecCaller
  b : RecCaller
deriving Repr, DecidableEq

/-- Run a schedule: true moves caller a, false moves caller b. -/
def recRun : List Bool → RecConc → RecConc
  | [], s => s
  | moveA :: rest, s =>
    if moveA then
      let p := recStep s.sh s.a
      recRun rest { s with sh := p.1, a := p.2 }
    else
      let p := recStep s.sh s.b
      recRun rest { s with sh := p.1, b := p.2 }

/-- Both callers at the start, order not yet applied. -/
def recInit : RecConc := ⟨⟨false, 0⟩, ⟨.toRead, false⟩, ⟨.toRead, false⟩⟩

/-! ## Thread state store and lifecycle (database.py, handlers.py,
utils.py) -/

/-- One thread_states row (database.py lines 37-46): status, archived
flag and last-activity timestamp (support_chat_id is fixed). -/
structure ThreadState where
  status : String
  archived : Nat
  last_activity : Int
deriving Repr, DecidableEq

/-- The thread-state store: rows keyed by thread_id. -/
abbrev ThreadStates := List (Int × ThreadState)

/-- Translation of db_upsert_thread_state (database.py lines 162-175):
INSERT OR on-conflict UPDATE of status, archived and last_activity. -/
def db_upsert_thread_state (ts : ThreadStates) (thread_id : Int)
    (status : String) (archived : Nat) (now : Int) : ThreadStates :=
  if (ts.find? (fun p => p.1 == thread_id)).isSome then
    ts.map (fun p => if p.1 == thread_id then (p.1, ⟨status, archived, now⟩) else p)
  else ts ++ [(thread_id, ⟨status, archived, now⟩)]

/-- Translation of db_touch_activity (database.py lines 177-188). -/
def db_touch_activity (ts : ThreadStates) (thread_id : Int)
    (now : Int) : ThreadStates :=
  ts.map (fun p =>
    if p.1 == thread_id then (p.1, { p.2 with last_activity := now }) else p)

/-- Translation of db_get_thread_state (database.py lines 191-204). -/
def db_get_thread_state (ts : ThreadStates) (thread_id : Int) :
    Option (String × Nat) :=
  (ts.find? (fun p => p.1 == thread_id)).map (fun p => (p.2.status, p.2.archived))

/-- Selection predicate of the archival sweep (handlers.py line 136):
archived=0, status active, last_activity at or before the cutoff. -/
def sweepPred (cutoff : Int) (p : Int × ThreadState) : Bool :=
  p.2.archived == 0 && p.2.status == "active" && decide (p.2.last_activity ≤ cutoff)

/-- The thread-lifecycle operations appearing in the source, one per
call site that touches the thread-state store. -/
inductive ThreadOp where
  /-- The close: callback branch of handle_callback_buttons
  (handlers.py lines 85-111). -/
  | closeCallback (thread_id : Int) (now : Int)
  /-- The open: callback branch of handle_callback_buttons
  (handlers.py lines 112-126). -/
  | openCallback (thread_id : Int) (now : Int)
  /-- The reopen-if-closed path of handle_incoming_from_user
  (handlers.py lines 197-206), including the db_touch_activity call. -/
  | incomingAutoReopen (thread_id : Int) (now : Int)
  /-- One run of archive_inactive_topics_job (handlers.py
  lines 129-161). -/
  | archiveSweep (cutoff : Int) (now : Int)
  /-- The creation path of ensure_forum_topic_for_user
  (utils.py lines 176-195). -/
  | createTopic (thread_id : Int) (now : Int)
deriving Repr, DecidableEq

/-- Apply one lifecycle operation.  userOf models db_get_user_id; the
second component is the list of users the operation sends the rating
prompt to (send_rating_message call sites at handlers.py lines 109 and
159). -/
def threadStep (userOf : Int → Option Int) (ts : ThreadStates) :
    ThreadOp → ThreadStates × List Int
  | .closeCallback thread_id now =>
    (db_upsert_thread_state ts thread_id "closed" 1 now,
     match userOf thread_id with
     | some user_id => [user_id]
     | none => [])
  | .openCallback thread_id now =>
    (db_upsert_thread_state ts thread_id "active" 0 now, [])
  | .incomingAutoReopen thread_id now =>
    let ts1 :=
      match db_get_thread_state ts thread_id with
      | some (status, archived) =>
        if archived != 0 || status != "active" then
          db_upsert_thread_state ts thread_id "active" 0 now
        else ts
      | none => ts
    (db_touch_activity ts1 thread_id now, [])
  | .archiveSweep cutoff now =>
    let rows := (ts.filter (sweepPred cutoff)).map Prod.fst
    rows.foldl
      (fun acc thread_id =>
        (db_upsert_thread_state acc.1 thread_id "closed" 1 now,
         acc.2 ++
           (match userOf thread_id with
            | some user_id => [user_id]
            | none => [])))
      (ts, [])
  | .createTopic thread_id now =>
    (db_upsert_thread_state ts thread_id "active" 0 now, [])

/-- Apply a sequence of lifecycle operations, accumulating the rating
prompts sent. -/
def threadRun (userOf : Int → Option Int) :
    ThreadStates → List ThreadOp → ThreadStates × List Int
  | ts, [] => (ts, [])
  | ts, op :: ops =>
    let p := threadStep userOf ts op
    let q := threadRun userOf p.1 ops
    (q.1, p.2 ++ q.2)

/-- The thread-state invariant of the spec data model: a row with
archived set nonzero has status closed. -/
def threadInv (ts : ThreadStates) : Prop :=
  ∀ p ∈ ts, p.2.archived ≠ 0 → p.2.status = "closed"

instance (ts : ThreadStates) : Decidable (threadInv ts) := by
  unfold threadInv; infer_instance

/-! ## Origin index and relay (utils.py, handlers.py) -/

/-- The support_msg_id_to_origin map (utils.py line 18): relayed message
id to (origin chat id, origin message id); assignment prepends, lookup
takes the most recent binding, matching dict overwrite semantics. -/
abbrev OriginMap := List (Int × (Int × Int))

/-- Dict assignment support_msg_id_to_origin[mid] = origin. -/
def originPut (m : OriginMap) (mid : Int) (origin : Int × Int) : OriginMap :=
  (mid, origin) :: m

/-- Dict lookup support_msg_id_to_origin.get(mid). -/
def originGet (m : OriginMap) (mid : Int) : Option (Int × Int) :=
  (m.find? (fun p => p.1 == mid)).map Prod.snd

/-- Environment for one relay of an inbound user message into the
support topic (handlers.py lines 208-254): the header message id
returned by send_message, the message id of copy_message when it
succeeds, the message id of forward_message when the copy failed and the
forward succeeds, whether the message has text for the last-resort
excerpt, and the id of that excerpt post. -/
structure RelayEnv where
  header_id : Int
  copy_id : Option Int
  fwd_id : Option Int
  has_text : Bool
  note_id : Int
deriving Repr, DecidableEq

/-- Translation of the forum-mode relay block of handle_incoming_from_user
(handlers.py lines 207-254): post the header and record its mapping, then
copy (fallback forward, fallback text excerpt) and record the content
post's mapping.  Returns the updated origin map and the relayed message
ids that were produced and mapped. -/
def relay_incoming (m : OriginMap) (chat_id message_id : Int)
    (env : RelayEnv) : OriginMap × List Int :=
  let origin := (chat_id, message_id)
  let m1 := originPut m env.header_id origin
  match env.copy_id with
  | some cid => (originPut m1 cid origin, [env.header_id, cid])
  | none =>
    match env.fwd_id with
    | some fid => (originPut m1 fid origin, [env.header_id, fid])
    | none =>
      if env.has_text then
        (originPut m1 env.note_id origin, [env.header_id, env.note_id])
      else (m1, [env.header_id])

/-- The copy_message call a reply is delivered with (handlers.py lines
325-332): destination chat, source chat, source message and the
reply_to_message_id anchor. -/
structure ReplyDelivery where
  chat_id : Int
  from_chat_id : Int
  message_id : Int
  reply_to_message_id : Int
deriving Repr, DecidableEq

/-- Translation of the forum-mode branch of handle_owner_reply
(handlers.py lines 306-333): only messages in the support chat that
reply to a mapped message id are delivered, as a copy to the origin chat
anchored at the origin message id. -/
def handle_owner_reply (m : OriginMap) (support_chat_id : Int)
    (chat_id : Int) (reply_to : Option Int) (message_id : Int) :
    Option ReplyDelivery :=
  if chat_id != support_chat_id then none
  else
    match reply_to with
    | none => none
    | some replied_id =>
      match originGet m replied_id with
      | none => none
      | some origin =>
        some ⟨origin.1, chat_id, message_id, origin.2⟩

/-- A sample db_get_user_id mapping used for concrete thread-lifecycle
runs: thread 5 belongs to user 42. -/
def sampleUserOf : Int → Option Int := fun t => if t == 5 then some 42 else none

/-! ## Helper lemmas -/

/-- A point update of the ledger is visible through the keyed get. -/
theorem db_get_ledgerMapAt_same (st : Ledger) (k : String)
    (g : PaymentOrder → PaymentOrder) :
    db_get_payment_order (ledgerMapAt st k g) k =
      (db_get_payment_order st k).map g := by
  induction st with
  | nil => rfl
  | cons p rest ih =>
    unfold ledgerMapAt db_get_payment_order at ih ⊢
    by_cases h : (p.1 == k) = true
    · simp [List.find?, h]
    · rw [Bool.not_eq_true] at h
      rw [List.map_cons, if_neg (by simp [h] : ¬(p.1 == k) = true),
        List.find?_cons_of_neg _ (by simp [h]),
        List.find?_cons_of_neg _ (by simp [h])]
      exact ih

/-- Dict lookup immediately after assignment of the same key. -/
theorem originGet_put_self (m : OriginMap) (k : Int) (o : Int × Int) :
    originGet (originPut m k o) k = some o := by
  simp [originGet, originPut, List.find?]

/-- Dict lookup after assignment of a different key. -/
theorem originGet_put_other (m : OriginMap) (k k' : Int) (o : Int × Int)
    (h : k' ≠ k) : originGet (originPut m k o) k' = originGet m k' := by
  have h' : (k == k') = false := by simp [Ne.symm h]
  simp [originGet, originPut, List.find?, h']

/-- When subscription_updated is already set on the order snapshot, the
subscription-update block makes no backend call. -/
theorem subscriptionUpdateBlock_flagged (st1 : Ledger) (po : PaymentOrder)
    (order_id : String) (telegram_id : Int)
    (user_backend : Int → Option (String × String)) (be : BackendEnv)
    (parse : String → Option Int) (now : Int) (success : HttpOutcome)
    (hflag : po.subscription_updated = true) :
    (subscriptionUpdateBlock st1 po order_id telegram_id user_backend be
        parse now success).backendCalls = [] := by
  unfold subscriptionUpdateBlock
  by_cases h1 : (po.telegram_id != telegram_id) = true
  · simp [h1]
  · rw [Bool.not_eq_true] at h1
    cases hub : user_backend telegram_id with
    | none => simp [h1, hub]
    | some pr =>
      obtain ⟨u, e⟩ := pr
      by_cases h2 : (u == "") = true
      · simp [h1, hub, h2]
      · rw [Bool.not_eq_true] at h2
        by_cases h3 : (po.uuid != some u) = true
        · simp [h1, hub, h2, h3]
        · rw [Bool.not_eq_true] at h3
          simp [h1, hub, h2, h3, hflag]

/-- When subscription_updated is already set on the looked-up order,
check_payment_status makes no backend call, whatever the gateway and
backend environments hold. -/
theorem check_payment_status_no_call_of_flagged (st : Ledger)
    (order_id : String) (telegram_id : Int)
    (user_backend : Int → Option (String × String)) (gw : GatewayEnv)
    (be : BackendEnv) (parse : String → Option Int) (now : Int)
    (po : PaymentOrder)
    (hget : db_get_payment_order st order_id = some po)
    (hflag : po.subscription_updated = true) :
    (check_payment_status st order_id telegram_id user_backend gw be parse
        now).backendCalls = [] := by
  unfold check_payment_status
  rw [hget]
  by_cases h1 : (po.telegram_id != telegram_id) = true
  · simp [h1]
  · rw [Bool.not_eq_true] at h1
    cases hgw : gw.status1 with
    | none => simp [h1, hgw]
    | some sc0 =>
      cases h2 : (resolveOrderStatus gw sc0).2 with
      | false => simp [h1, h2]
      | true =>
        simp only [h1, h2, Bool.false_eq_true, if_false, if_true]
        exact subscriptionUpdateBlock_flagged _ _ _ _ _ _ _ _ _ hflag

/-- Characterization of the successful application path of
check_payment_status: order present and owned, gateway reports the
settled status, backend uuid matches, flag not yet set, plan days
present — the endpoint stores PAID, runs the backend update and marks
the order. -/
theorem check_payment_status_applies (st : Ledger) (order_id : String)
    (telegram_id : Int) (user_backend : Int → Option (String × String))
    (gw : GatewayEnv) (be : BackendEnv) (parse : String → Option Int)
    (now : Int) (po : PaymentOrder) (user_uuid email : String)
    (plan_days : Nat)
    (hget : db_get_payment_order st order_id = some po)
    (hown : po.telegram_id = telegram_id)
    (hgw : gw.status1 = some ORDER_STATUS_SUCCESS)
    (hub : user_backend telegram_id = some (user_uuid, email))
    (huu : user_uuid ≠ "")
    (hpu : po.uuid = some user_uuid)
    (hflag : po.subscription_updated = false)
    (hpd : po.plan_days = some plan_days)
    (hd : plan_days ≠ 0) :
    check_payment_status st order_id telegram_id user_backend gw be parse
        now =
      ⟨.ok true ORDER_STATUS_SUCCESS,
       db_mark_subscription_updated
         (db_update_payment_order_status st order_id "PAID") order_id,
       update_user_subscription_after_payment be parse user_uuid plan_days
         now⟩ := by
  unfold check_payment_status resolveOrderStatus subscriptionUpdateBlock
  rw [hget]
  simp [hown, hgw, hub, huu, hpu, hflag, hpd, hd, is_order_paid,
    ORDER_STATUS_SUCCESS, ORDER_STATUS_PRE_AUTH]

/-! ## C3 (status classification) -/

/-- C3: the claim says only the fully-settled status (2) counts as
success for entitlement purposes.  The code violates this:
is_order_paid returns true for the PRE_AUTH status 1 as well — the
constant's own comment in payment_gateway.py line 24 calls status 1 not
paid — and when the deposit attempt on a PRE_AUTH order fails,
check_payment_status still treats the order as paid from the PRE_AUTH
status alone: it stores PAID, applies the entitlement and marks the
order, without any re-check. -/
theorem C3_preauth_counts_as_paid :
    is_order_paid ORDER_STATUS_PRE_AUTH = true ∧
    check_payment_status
      [("o1", ⟨7, some "u", some 30, 10, "kzt", "PENDING", false⟩)]
      "o1" 7 (fun _ => some ("u", "e"))
      ⟨some ORDER_STATUS_PRE_AUTH, false, none⟩
      ⟨some ⟨"DISABLED", none⟩, true⟩ (fun _ => none) 1000 =
    ⟨.ok true ORDER_STATUS_PRE_AUTH,
     [("o1", ⟨7, some "u", some 30, 10, "kzt", "PAID", true⟩)],
     [⟨"u", "ACTIVE", 1000 + 30 * 86400, true⟩]⟩ := by decide

/-! ## C2 (flag vs backend result) -/

/-- C2 counterexample: a concrete reconciliation in which the backend
update call reports failure (update_user_subscription returns None,
recorded as ok := false on the one call made), yet the order ends up
with subscription_updated = true — the claim says the flag would stay
false so that a future attempt retries. -/
theorem C2_flag_set_despite_backend_failure :
    (check_payment_status
        [("o1", ⟨7, some "u", some 30, 10, "kzt", "PENDING", false⟩)]
        "o1" 7 (fun _ => some ("u", "e")) ⟨some 2, false, none⟩
        ⟨some ⟨"DISABLED", none⟩, false⟩ (fun _ => none)
        1000).backendCalls =
      [⟨"u", "ACTIVE", 1000 + 30 * 86400, false⟩] ∧
    db_get_payment_order
        (check_payment_status
          [("o1", ⟨7, some "u", some 30, 10, "kzt", "PENDING", false⟩)]
          "o1" 7 (fun _ => some ("u", "e")) ⟨some 2, false, none⟩
          ⟨some ⟨"DISABLED", none⟩, false⟩ (fun _ => none) 1000).ledger
        "o1" =
      some ⟨7, some "u", some 30, 10, "kzt", "PAID", true⟩ := by decide

/-- C2 amended: once the reconciliation reaches the update step, the
order is marked subscription_updated = true regardless of the backend
environment — in particular regardless of whether the backend update
call reports success or failure (update_user_subscription_after_payment
swallows every error and returns nothing), so a failed backend update is
not retried by a later reconciliation. -/
theorem C2_flag_set_independent_of_backend_result (st : Ledger)
    (order_id : String) (telegram_id : Int)
    (user_backend : Int → Option (String × String)) (gw : GatewayEnv)
    (be : BackendEnv) (parse : String → Option Int) (now : Int)
    (po : PaymentOrder) (user_uuid email : String) (plan_days : Nat)
    (hget : db_get_payment_order st order_id = some po)
    (hown : po.telegram_id = telegram_id)
    (hgw : gw.status1 = some ORDER_STATUS_SUCCESS)
    (hub : user_backend telegram_id = some (user_uuid, email))
    (huu : user_uuid ≠ "")
    (hpu : po.uuid = some user_uuid)
    (hflag : po.subscription_updated = false)
    (hpd : po.plan_days = some plan_days)
    (hd : plan_days ≠ 0) :
    db_get_payment_order
        (check_payment_status st order_id telegram_id user_backend gw be
          parse now).ledger order_id =
      some { po with status := "PAID", subscription_updated := true } := by
  rw [check_payment_status_applies st order_id telegram_id user_backend gw
    be parse now po user_uuid email plan_days hget hown hgw hub huu hpu
    hflag hpd hd]
  unfold db_mark_subscription_updated db_update_payment_order_status
  rw [db_get_ledgerMapAt_same, db_get_ledgerMapAt_same, hget]
  rfl

/-- Witness for C2's amended theorem at a concrete failing backend
(updateOk := false). -/
theorem C2_flag_set_independent_of_backend_result_witness :
    db_get_payment_order
        (check_payment_status
          [("o1", ⟨7, some "u", some 30, 10, "kzt", "PENDING", false⟩)]
          "o1" 7 (fun _ => some ("u", "e")) ⟨some 2, false, none⟩
          ⟨some ⟨"DISABLED", none⟩, false⟩ (fun _ => none) 1000).ledger
        "o1" =
      some ⟨7, some "u", some 30, 10, "kzt", "PAID", true⟩ :=
  C2_flag_set_independent_of_backend_result
    [("o1", ⟨7, some "u", some 30, 10, "kzt", "PENDING", false⟩)]
    "o1" 7 (fun _ => some ("u", "e")) ⟨some 2, false, none⟩
    ⟨some ⟨"DISABLED", none⟩, false⟩ (fun _ => none) 1000
    ⟨7, some "u", some 30, 10, "kzt", "PENDING", false⟩ "u" "e" 30
    (by decide) (by decide) (by decide) (by decide) (by decide)
    (by decide) (by decide) (by decide) (by decide)

/-! ## C4 (idempotent skip on repeated success) -/

/-- C4: an order whose subscription_updated flag is already set is
skipped by a later success reconciliation with no further backend
update_subject call (both for the status-check endpoint and for the
Stars successful-payment handler, where the ledger is also untouched);
and a gateway reporting success twice for the same order results in
exactly one update_subject call: the first reconciliation makes one call
and the second, run on the ledger the first produced, makes none. -/
theorem C4_repeat_success_skips (st : Ledger) (order_id : String)
    (telegram_id : Int) (user_backend : Int → Option (String × String))
    (gw : GatewayEnv) (be : BackendEnv) (parse : String → Option Int)
    (now : Int) (po : PaymentOrder) (user_uuid email : String)
    (plan_days : Nat) (ud : UserData)
    (hget : db_get_payment_order st order_id = some po)
    (hown : po.telegram_id = telegram_id)
    (hgw : gw.status1 = some ORDER_STATUS_SUCCESS)
    (hub : user_backend telegram_id = some (user_uuid, email))
    (huu : user_uuid ≠ "")
    (hpu : po.uuid = some user_uuid)
    (hflag : po.subscription_updated = false)
    (hpd : po.plan_days = some plan_days)
    (hd : plan_days ≠ 0)
    (hud : be.userData = some ud) :
    (∀ st2 po2, db_get_payment_order st2 order_id = some po2 →
      po2.subscription_updated = true →
      (check_payment_status st2 order_id telegram_id user_backend gw be
          parse now).backendCalls = []) ∧
    (∀ st2 po2 fu, db_get_payment_order st2 order_id = some po2 →
      po2.subscription_updated = true →
      handle_successful_payment st2 order_id fu be parse now = (st2, [])) ∧
    (check_payment_status st order_id telegram_id user_backend gw be parse
        now).backendCalls.length = 1 ∧
    (check_payment_status
        (check_payment_status st order_id telegram_id user_backend gw be
          parse now).ledger
        order_id telegram_id user_backend gw be parse now).backendCalls =
      [] := by
  have happ := check_payment_status_applies st order_id telegram_id
    user_backend gw be parse now po user_uuid email plan_days hget hown
    hgw hub huu hpu hflag hpd hd
  refine ⟨?_, ?_, ?_, ?_⟩
  · intro st2 po2 hget2 hflag2
    exact check_payment_status_no_call_of_flagged st2 order_id telegram_id
      user_backend gw be parse now po2 hget2 hflag2
  · intro st2 po2 fu hget2 hflag2
    unfold handle_successful_payment
    by_cases hp : order_id = ""
    · simp [hp]
    · rw [if_neg (by simp [hp])]
      simp only [hget2]
      by_cases hmm : (match fu with
        | some user_id => po2.telegram_id != user_id
        | none => false) = true
      · rw [if_pos hmm]
      · rw [if_neg hmm, if_pos (by simp [hflag2])]
  · rw [happ]
    simp [update_user_subscription_after_payment, hud]
  · rw [happ]
    have hget' : db_get_payment_order
        (db_mark_subscription_updated
          (db_update_payment_order_status st order_id "PAID") order_id)
        order_id =
        some { po with status := "PAID", subscription_updated := true } := by
      unfold db_mark_subscription_updated db_update_payment_order_status
      rw [db_get_ledgerMapAt_same, db_get_ledgerMapAt_same, hget]
      rfl
    exact check_payment_status_no_call_of_flagged _ order_id telegram_id
      user_backend gw be parse now _ hget' rfl

/-- Witness for C4 at a concrete ledger: first success applies once,
second success skips. -/
theorem C4_repeat_success_skips_witness :
    (check_payment_status
        [("o1", ⟨7, some "u", some 30, 10, "kzt", "PENDING", false⟩)]
        "o1" 7 (fun _ => some ("u", "e")) ⟨some 2, false, none⟩
        ⟨some ⟨"DISABLED", none⟩, true⟩ (fun _ => none)
        1000).backendCalls.length = 1 ∧
    (check_payment_status
        (check_payment_status
          [("o1", ⟨7, some "u", some 30, 10, "kzt", "PENDING", false⟩)]
          "o1" 7 (fun _ => some ("u", "e")) ⟨some 2, false, none⟩
          ⟨some ⟨"DISABLED", none⟩, true⟩ (fun _ => none) 1000).ledger
        "o1" 7 (fun _ => some ("u", "e")) ⟨some 2, false, none⟩
        ⟨some ⟨"DISABLED", none⟩, true⟩ (fun _ => none)
        1000).backendCalls = [] := by
  have h := C4_repeat_success_skips
    [("o1", ⟨7, some "u", some 30, 10, "kzt", "PENDING", false⟩)]
    "o1" 7 (fun _ => some ("u", "e")) ⟨some 2, false, none⟩
    ⟨some ⟨"DISABLED", none⟩, true⟩ (fun _ => none) 1000
    ⟨7, some "u", some 30, 10, "kzt", "PENDING", false⟩ "u" "e" 30
    ⟨"DISABLED", none⟩ (by decide) (by decide) (by decide) (by decide)
    (by decide) (by decide) (by decide) (by decide) (by decide) (by decide)
  exact ⟨h.2.2.1, h.2.2.2⟩

/-! ## C10 (pre-checkout approval) -/

/-- C10: a Telegram Stars pre-checkout query with a non-empty payload
and a present paying user is approved if and only if the order exists in
the ledger, its recorded telegram_id is the paying user, the currency is
XTR, and the total amount equals the stored amount times 100 (truncated
to an integer, as Python int does). -/
theorem C10_pre_checkout_approval_iff (st : Ledger)
    (invoice_payload : String) (user_id : Int) (currency : String)
    (total_amount : Int) :
    handle_pre_checkout_query st invoice_payload (some user_id) currency
        total_amount = true ↔
      invoice_payload ≠ "" ∧
      ∃ po, db_get_payment_order st invoice_payload = some po ∧
        po.telegram_id = user_id ∧ currency = "XTR" ∧
        total_amount = pyIntTimes100 po.amount := by
  unfold handle_pre_checkout_query
  by_cases hp : invoice_payload = ""
  · simp [hp]
  · cases hget : db_get_payment_order st invoice_payload with
    | none => simp [hp, hget]
    | some po =>
      by_cases hown : po.telegram_id = user_id
      · by_cases hcur : currency = "XTR"
        · by_cases hamt : total_amount = pyIntTimes100 po.amount
          · simp [hp, hget, hown, hcur, hamt]
          · simp [hp, hget, hown, hcur, hamt]
        · simp [hp, hget, hown, hcur]
      · simp [hp, hget, hown]

/-! ## C5 (expiry computation) -/

/-- C5: with the backend subject present, the reconciliation update
sends exactly one update_subject request carrying status ACTIVE and the
computed expiry; the expiry is current_expiry plus plan_days when the
subject status upper-cases to ACTIVE and a parseable expiry is present,
and now plus plan_days otherwise (disabled, expired, or no expiry). -/
theorem C5_expiry_computation (be : BackendEnv)
    (parse : String → Option Int) (uuid : String) (plan_days : Nat)
    (now : Int) (ud : UserData) (h : be.userData = some ud) :
    update_user_subscription_after_payment be parse uuid plan_days now =
      [⟨uuid, "ACTIVE", computeNewExpireAt parse ud now plan_days,
        be.updateOk⟩] ∧
    (∀ s e, pyUpper ud.status = "ACTIVE" → ud.expireAt = some s →
      s ≠ "" → parse s = some e →
      computeNewExpireAt parse ud now plan_days =
        e + plan_days * secondsPerDay) ∧
    (¬(pyUpper ud.status = "ACTIVE" ∧ optStrTruthy ud.expireAt = true) →
      computeNewExpireAt parse ud now plan_days =
        now + plan_days * secondsPerDay) := by
  refine ⟨by simp [update_user_subscription_after_payment, h], ?_, ?_⟩
  · intro s e h1 h2 h3 h4
    simp [computeNewExpireAt, h1, h2, h3, h4, optStrTruthy]
  · intro hn
    unfold computeNewExpireAt
    rw [if_neg]
    simp only [Bool.and_eq_true, beq_iff_eq]
    exact fun hc => hn ⟨hc.1, hc.2⟩

/-- Witness for C5 at a concrete active subject with a parseable
expiry. -/
theorem C5_expiry_computation_witness :
    update_user_subscription_after_payment
        ⟨some ⟨"active", some "E"⟩, true⟩
        (fun s => if s == "E" then some 500 else none) "u" 30 1000 =
      [⟨"u", "ACTIVE",
        computeNewExpireAt (fun s => if s == "E" then some 500 else none)
          ⟨"active", some "E"⟩ 1000 30, true⟩] ∧
    computeNewExpireAt (fun s => if s == "E" then some 500 else none)
        ⟨"active", some "E"⟩ 1000 30 = 500 + 30 * secondsPerDay := by
  have h := C5_expiry_computation ⟨some ⟨"active", some "E"⟩, true⟩
    (fun s => if s == "E" then some 500 else none) "u" 30 1000
    ⟨"active", some "E"⟩ rfl
  exact ⟨h.1, h.2.1 "E" 500 (by decide) rfl (by decide) (by decide)⟩

/-! ## C6 (ownership mismatch) -/

/-- C6: when the caller-supplied telegram_id does not match the order's
recorded telegram_id, all three reconciliation entry points reject the
request with no side effect: the ledger is returned unchanged and no
backend update_subject call is made. -/
theorem C6_ownership_mismatch_no_side_effect (st : Ledger)
    (order_id : String) (telegram_id : Int)
    (user_backend : Int → Option (String × String)) (gw : GatewayEnv)
    (cm : CryptomusEnv) (be : BackendEnv) (parse : String → Option Int)
    (now : Int) (po : PaymentOrder)
    (hget : db_get_payment_order st order_id = some po)
    (hmm : po.telegram_id ≠ telegram_id) :
    check_payment_status st order_id telegram_id user_backend gw be parse
        now = ⟨.forbidden, st, []⟩ ∧
    payment_return st order_id telegram_id user_backend gw cm be parse
        now = ⟨.forbidden, st, []⟩ ∧
    handle_successful_payment st order_id (some telegram_id) be parse
        now = (st, []) := by
  refine ⟨?_, ?_, ?_⟩
  · unfold check_payment_status
    simp [hget, hmm]
  · unfold payment_return
    simp [hget, hmm]
  · unfold handle_successful_payment
    by_cases hp : order_id = ""
    · simp [hp]
    · simp [hp, hget, hmm]

/-- Witness for C6 at a concrete mismatched caller. -/
theorem C6_ownership_mismatch_no_side_effect_witness :
    check_payment_status
        [("o1", ⟨7, some "u", some 30, 10, "kzt", "PENDING", false⟩)]
        "o1" 8 (fun _ => some ("u", "e")) ⟨some 2, false, none⟩
        ⟨some ⟨"DISABLED", none⟩, true⟩ (fun _ => none) 1000 =
      ⟨.forbidden,
       [("o1", ⟨7, some "u", some 30, 10, "kzt", "PENDING", false⟩)],
       []⟩ :=
  (C6_ownership_mismatch_no_side_effect
    [("o1", ⟨7, some "u", some 30, 10, "kzt", "PENDING", false⟩)]
    "o1" 8 (fun _ => some ("u", "e")) ⟨some 2, false, none⟩ ⟨some "paid"⟩
    ⟨some ⟨"DISABLED", none⟩, true⟩ (fun _ => none) 1000
    ⟨7, some "u", some 30, 10, "kzt", "PENDING", false⟩
    (by decide) (by decide)).1

/-! ## C1 (concurrent reconciliation) -/

/-- Running an interleaving schedule distributes over append. -/
theorem recRun_append (l1 l2 : List Bool) (s : RecConc) :
    recRun (l1 ++ l2) s = recRun l2 (recRun l1 s) := by
  induction l1 generalizing s with
  | nil => rfl
  | cons x rest ih =>
    cases x <;> simp [recRun, ih]

/-- A finished caller's step changes nothing. -/
theorem recStep_done (sh : RecShared) (c : RecCaller)
    (h : c.pc = .doneApplied ∨ c.pc = .doneSkipped) :
    recStep sh c = (sh, c) := by
  unfold recStep
  rcases h with h | h <;> rw [h]

/-- Extra schedule moves of a finished caller a are no-ops. -/
theorem recRun_true_done (k : Nat) (s : RecConc)
    (h : s.a.pc = .doneApplied ∨ s.a.pc = .doneSkipped) :
    recRun (List.replicate k true) s = s := by
  induction k generalizing s with
  | zero => rfl
  | succ n ih =>
    rw [List.replicate_succ]
    have hs : recStep s.sh s.a = (s.sh, s.a) := recStep_done _ _ h
    simp only [recRun, hs, if_true]
    exact ih s h

/-- Extra schedule moves of a finished caller b are no-ops. -/
theorem recRun_false_done (k : Nat) (s : RecConc)
    (h : s.b.pc = .doneApplied ∨ s.b.pc = .doneSkipped) :
    recRun (List.replicate k false) s = s := by
  induction k generalizing s with
  | zero => rfl
  | succ n ih =>
    rw [List.replicate_succ]
    have hs : recStep s.sh s.b = (s.sh, s.b) := recStep_done _ _ h
    simp only [recRun, hs]
    exact ih s h

/-- C1 counterexample: an interleaving in which both reconciliations
read subscription_updated = false before either marks it — possible in
the source because the awaited gateway and backend calls sit between the
ledger read and the mark, and no per-order lock exists — makes two
backend update_subject calls, and both callers finish as applied.  The
claim as stated (exactly one backend call, exactly one applied) is
therefore false for this concurrent execution. -/
theorem C1_two_interleaved_reconciles_double_update :
    (recRun [true, false, true, true, false, false] recInit).sh.updates = 2 ∧
    (recRun [true, false, true, true, false, false] recInit).a.pc =
      .doneApplied ∧
    (recRun [true, false, true, true, false, false] recInit).b.pc =
      .doneApplied := by decide

/-- C1 amended: exactly-once holds only for serialized executions — when
one reconciliation of the order runs to completion before the other
reads the ledger row, there is exactly one backend update_subject call,
the first caller applies and the second skips.  (Overlapping
interleavings can apply more than once, as the counterexample shows.) -/
theorem C1_serial_reconciles_exactly_once (n m : Nat) (hn : 3 ≤ n)
    (hm : 3 ≤ m) :
    (recRun (List.replicate n true ++ List.replicate m false)
        recInit).sh.updates = 1 ∧
    (recRun (List.replicate n true ++ List.replicate m false)
        recInit).a.pc = .doneApplied ∧
    (recRun (List.replicate n true ++ List.replicate m false)
        recInit).b.pc = .doneSkipped := by
  obtain ⟨n', rfl⟩ : ∃ n', n = 3 + n' := ⟨n - 3, by omega⟩
  obtain ⟨m', rfl⟩ : ∃ m', m = 3 + m' := ⟨m - 3, by omega⟩
  have h1 : recRun (List.replicate (3 + n') true) recInit =
      ⟨⟨true, 1⟩, ⟨.doneApplied, false⟩, ⟨.toRead, false⟩⟩ := by
    rw [List.replicate_add, recRun_append]
    have h3 : recRun (List.replicate 3 true) recInit =
        ⟨⟨true, 1⟩, ⟨.doneApplied, false⟩, ⟨.toRead, false⟩⟩ := by decide
    rw [h3]
    exact recRun_true_done n' _ (Or.inl rfl)
  have h2 : recRun (List.replicate (3 + m') false)
      ⟨⟨true, 1⟩, ⟨.doneApplied, false⟩, ⟨.toRead, false⟩⟩ =
      ⟨⟨true, 1⟩, ⟨.doneApplied, false⟩, ⟨.doneSkipped, true⟩⟩ := by
    rw [List.replicate_add, recRun_append]
    have h3 : recRun (List.replicate 3 false)
        ⟨⟨true, 1⟩, ⟨.doneApplied, false⟩, ⟨.toRead, false⟩⟩ =
        ⟨⟨true, 1⟩, ⟨.doneApplied, false⟩, ⟨.doneSkipped, true⟩⟩ := by decide
    rw [h3]
    exact recRun_false_done m' _ (Or.inr rfl)
  rw [recRun_append, h1, h2]
  exact ⟨rfl, rfl, rfl⟩

/-- Witness for C1's amended theorem at the shortest serial schedule. -/
theorem C1_serial_reconciles_exactly_once_witness :
    (recRun (List.replicate 3 true ++ List.replicate 3 false)
        recInit).sh.updates = 1 :=
  (C1_serial_reconciles_exactly_once 3 3 (by decide) (by decide)).1

/-! ## C7 (thread-state invariant) -/

/-- db_upsert_thread_state preserves the invariant whenever the written
(status, archived) pair itself respects it. -/
theorem threadInv_upsert (ts : ThreadStates) (thread_id : Int)
    (status : String) (archived : Nat) (now : Int)
    (hts : threadInv ts) (hw : archived ≠ 0 → status = "closed") :
    threadInv (db_upsert_thread_state ts thread_id status archived now) := by
  unfold db_upsert_thread_state
  split
  · intro p hp
    rw [List.mem_map] at hp
    obtain ⟨q, hq, rfl⟩ := hp
    split
    · exact hw
    · exact hts q hq
  · intro p hp
    rw [List.mem_append] at hp
    rcases hp with hp | hp
    · exact hts p hp
    · rw [List.mem_singleton] at hp
      subst hp
      exact hw

/-- db_touch_activity does not change status or archived, so it
preserves the invariant. -/
theorem threadInv_touch (ts : ThreadStates) (thread_id now : Int)
    (hts : threadInv ts) :
    threadInv (db_touch_activity ts thread_id now) := by
  unfold db_touch_activity
  intro p hp
  rw [List.mem_map] at hp
  obtain ⟨q, hq, rfl⟩ := hp
  split
  · exact hts q hq
  · exact hts q hq

/-- The archival sweep's fold of closed/archived upserts preserves the
invariant. -/
theorem threadInv_sweep_fold (userOf : Int → Option Int) (now : Int)
    (rows : List Int) (start : ThreadStates × List Int)
    (hts : threadInv start.1) :
    threadInv ((rows.foldl
      (fun acc thread_id =>
        (db_upsert_thread_state acc.1 thread_id "closed" 1 now,
         acc.2 ++
           (match userOf thread_id with
            | some user_id => [user_id]
            | none => []))) start).1) := by
  induction rows generalizing start with
  | nil => exact hts
  | cons r rest ih =>
    rw [List.foldl_cons]
    exact ih _ (threadInv_upsert _ _ _ _ _ hts (fun _ => rfl))

/-- Every single lifecycle operation preserves the invariant. -/
theorem threadInv_step (userOf : Int → Option Int) (ts : ThreadStates)
    (op : ThreadOp) (hts : threadInv ts) :
    threadInv (threadStep userOf ts op).1 := by
  cases op with
  | closeCallback thread_id now =>
    exact threadInv_upsert _ _ _ _ _ hts (fun _ => rfl)
  | openCallback thread_id now =>
    exact threadInv_upsert _ _ _ _ _ hts (fun h => absurd rfl h)
  | incomingAutoReopen thread_id now =>
    refine threadInv_touch _ _ _ ?_
    split
    · split
      · exact threadInv_upsert _ _ _ _ _ hts (fun h => absurd rfl h)
      · exact hts
    · exact hts
  | archiveSweep cutoff now =>
    exact threadInv_sweep_fold userOf now _ (ts, []) hts
  | createTopic thread_id now =>
    exact threadInv_upsert _ _ _ _ _ hts (fun h => absurd rfl h)

/-- C7: archived implies closed after every sequence of thread-lifecycle
operations — creation, manual close, manual reopen, auto-reopen on an
inbound message, archival sweep — starting from any store satisfying the
invariant.  Every write of the store is a single atomic upsert carrying
both fields, and each upsert only ever writes (closed, 1) or
(active, 0), so any interleaving of a manual close with an archival
sweep is some such sequence and keeps the invariant. -/
theorem C7_archived_implies_closed (userOf : Int → Option Int)
    (ops : List ThreadOp) (ts : ThreadStates) (hts : threadInv ts) :
    threadInv (threadRun userOf ts ops).1 := by
  induction ops generalizing ts with
  | nil => exact hts
  | cons op rest ih =>
    exact ih (threadStep userOf ts op).1 (threadInv_step userOf ts op hts)

/-- Witness for C7: a concrete create, close and sweep sequence from the
empty store. -/
theorem C7_archived_implies_closed_witness :
    threadInv (threadRun sampleUserOf []
      [.createTopic 5 0, .closeCallback 5 1, .archiveSweep 10 2]).1 :=
  C7_archived_implies_closed sampleUserOf
    [.createTopic 5 0, .closeCallback 5 1, .archiveSweep 10 2] []
    (by decide)

/-! ## C8 (rating prompt on close) -/

/-- C8 counterexample: the close callback sends the rating prompt
unconditionally — handlers.py updates the state and sends the prompt
regardless of the close result and of the prior state — so a second
close on the same thread prompts again: two close callbacks produce two
prompts, and a close of a thread already stored as closed/archived still
produces a prompt.  The claim that a second close on an already-closed
thread does not re-prompt is therefore false. -/
theorem C8_second_close_reprompts :
    (threadRun sampleUserOf [] [.closeCallback 5 0, .closeCallback 5 1]).2 =
      [42, 42] ∧
    (threadStep sampleUserOf [(5, ⟨"closed", 1, 0⟩)]
        (.closeCallback 5 1)).2 = [42] := by decide

/-- C8 amended: the manual close callback sends the rating prompt to the
thread's user on every close action, independent of the thread's stored
state (so a second close re-prompts); the archival sweep, by contrast,
only selects threads that are still active, not archived and stale, so
the sweep never prompts a thread that is already closed/archived. -/
theorem C8_prompt_behaviour :
    (∀ (userOf : Int → Option Int) (ts : ThreadStates)
      (thread_id now user_id : Int),
      userOf thread_id = some user_id →
      (threadStep userOf ts (.closeCallback thread_id now)).2 = [user_id]) ∧
    (∀ (cutoff : Int) (ts : ThreadStates) (q : Int × ThreadState),
      q ∈ ts.filter (sweepPred cutoff) →
      q.2.archived = 0 ∧ q.2.status = "active" ∧
        q.2.last_activity ≤ cutoff) := by
  constructor
  · intro userOf ts thread_id now user_id h
    simp [threadStep, h]
  · intro cutoff ts q hq
    rw [List.mem_filter] at hq
    have h2 := hq.2
    unfold sweepPred at h2
    simp only [Bool.and_eq_true, beq_iff_eq, decide_eq_true_eq] at h2
    exact ⟨h2.1.1, h2.1.2, h2.2⟩

/-- Witness for C8's amended theorem: a close of thread 5 prompts user
42, and a concrete selected sweep row is active and not archived. -/
theorem C8_prompt_behaviour_witness :
    (threadStep sampleUserOf [] (.closeCallback 5 0)).2 = [42] ∧
    ((5 : Int), (⟨"active", 0, 0⟩ : ThreadState)).2.archived = 0 :=
  ⟨C8_prompt_behaviour.1 sampleUserOf [] 5 0 42 (by decide),
   (C8_prompt_behaviour.2 0 [(5, ⟨"active", 0, 0⟩)] (5, ⟨"active", 0, 0⟩)
     (by decide)).1⟩

/-! ## C9 (origin round-trip) -/

/-- C9: after relaying an inbound user message, every message id the
relay produced and recorded — the header post and the copied, forwarded
or fallback-text content post — looks up in the origin index to exactly
the (origin chat, origin message) pair of the user's message, and an
operator reply to any of those ids is delivered as a copy to that origin
chat, anchored as a reply to that origin message. -/
theorem C9_origin_round_trip (m : OriginMap) (chat_id message_id : Int)
    (env : RelayEnv) (mid : Int)
    (hmem : mid ∈ (relay_incoming m chat_id message_id env).2) :
    originGet (relay_incoming m chat_id message_id env).1 mid =
      some (chat_id, message_id) ∧
    ∀ support_chat_id reply_msg_id : Int,
      handle_owner_reply (relay_incoming m chat_id message_id env).1
        support_chat_id support_chat_id (some mid) reply_msg_id =
      some ⟨chat_id, support_chat_id, reply_msg_id, message_id⟩ := by
  have hget : originGet (relay_incoming m chat_id message_id env).1 mid =
      some (chat_id, message_id) := by
    obtain ⟨hid, cido, fido, htext, nid⟩ := env
    unfold relay_incoming at hmem ⊢
    cases cido with
    | some cid =>
      simp only [List.mem_cons, List.not_mem_nil, or_false] at hmem
      rcases hmem with rfl | rfl
      · by_cases hcd : mid = cid
        · subst hcd
          exact originGet_put_self _ _ _
        · rw [originGet_put_other _ _ _ _ hcd]
          exact originGet_put_self _ _ _
      · exact originGet_put_self _ _ _
    | none =>
      cases fido with
      | some fid =>
        simp only [List.mem_cons, List.not_mem_nil, or_false] at hmem
        rcases hmem with rfl | rfl
        · by_cases hfd : mid = fid
          · subst hfd
            exact originGet_put_self _ _ _
          · rw [originGet_put_other _ _ _ _ hfd]
            exact originGet_put_self _ _ _
        · exact originGet_put_self _ _ _
      | none =>
        cases htext with
        | true =>
          have hmem2 : mid ∈ ([hid, nid] : List Int) := hmem
          simp only [List.mem_cons, List.not_mem_nil, or_false] at hmem2
          rcases hmem2 with rfl | rfl
          · by_cases hnd : mid = nid
            · subst hnd
              exact originGet_put_self _ _ _
            · show originGet (originPut (originPut m mid (chat_id, message_id))
                nid (chat_id, message_id)) mid = some (chat_id, message_id)
              rw [originGet_put_other _ _ _ _ hnd]
              exact originGet_put_self _ _ _
          · exact originGet_put_self _ _ _
        | false =>
          have hmem2 : mid ∈ ([hid] : List Int) := hmem
          simp only [List.mem_cons, List.not_mem_nil, or_false] at hmem2
          subst hmem2
          exact originGet_put_self _ _ _
  refine ⟨hget, fun support_chat_id reply_msg_id => ?_⟩
  unfold handle_owner_reply
  rw [if_neg (by simp)]
  simp [hget]

/-- Witness for C9 at a concrete relay whose copy succeeded. -/
theorem C9_origin_round_trip_witness :
    originGet (relay_incoming [] 100 200 ⟨11, some 12, none, false, 0⟩).1
        12 = some (100, 200) ∧
    handle_owner_reply
        (relay_incoming [] 100 200 ⟨11, some 12, none, false, 0⟩).1
        500 500 (some 12) 77 = some ⟨100, 500, 77, 200⟩ := by
  have h := C9_origin_round_trip [] 100 200 ⟨11, some 12, none, false, 0⟩
    12 (by decide)
  exact ⟨h.1, h.2 500 77⟩
